import Mathlib

/-!
Verification of the FinanceOS frontend (Next.js client under `frontend/`) and the
SQLite schema, against the orchestration specification.  Pure shallow embedding:
each definition mirrors one source function or one table's constraints; the
backend (FastAPI orchestrator, scanner, task registry) is not part of the
source tree here, so the spec-level operations it implements are modelled from
the specification text and marked as such in their doc comments.
-/

namespace FinanceOS

/-- Stand-in for a JavaScript `Record<string, unknown>` payload: an association
list of string keys to (stringified) values.  No claim inspects the values, only
whole-record equality matters. -/
abbrev Payload := List (String × String)

/-- JavaScript `a || b` on strings: the empty string is falsy. -/
def jsOr (a b : String) : String := if a = "" then b else a

/-- JavaScript truthiness of a `string | undefined` value:
`undefined` and `""` are falsy. -/
def strTruthy : Option String → Bool
  | none => false
  | some s => !(s = "")

/- ### Data model, from `frontend/lib/types.ts` -/

/-- One entry of `TriTieredOutput.compliance.items` (types.ts lines 118–122). -/
structure ComplianceItem where
  severity : String
  message : String
  rule_citation : Option String
deriving DecidableEq

/-- The `compliance` field of `TriTieredOutput` (types.ts lines 116–123). -/
structure ComplianceOutput where
  status : String
  items : List ComplianceItem
deriving DecidableEq

/-- The `numbers` field of `TriTieredOutput` (types.ts lines 111–115). -/
structure NumbersOutput where
  summary : String
  details : String
  python_code : Option String
deriving DecidableEq

/-- The `draft_message` field of `TriTieredOutput` (types.ts lines 124–130). -/
structure DraftMessageOutput where
  sendTo : String
  subject : String
  body : String
  tone : String
  rag_highlights : List String
deriving DecidableEq

/-- Mirrors `ResearchSuggestion` (types.ts lines 92–97). -/
structure ResearchSuggestion where
  ticker : String
  name : String
  allocation_pct : Rat
  rationale : String
deriving DecidableEq

/-- The `asset_mix` field of `ResearchOutput` (types.ts lines 102–106). -/
structure AssetMix where
  equity_pct : Rat
  fixed_income_pct : Rat
  alternatives_pct : Rat
deriving DecidableEq

/-- Mirrors `ResearchOutput` (types.ts lines 99–108). -/
structure ResearchOutput where
  summary : String
  suggestions : List ResearchSuggestion
  asset_mix : AssetMix
  account_strategy : Option String
deriving DecidableEq

/-- Mirrors `TriTieredOutput` (types.ts lines 110–132): the composite artifact the
client receives.  `numbers`, `compliance` and `draft_message` are required
fields; `research` is optional (`ResearchOutput | null | undefined`). -/
structure TriTieredOutput where
  numbers : NumbersOutput
  compliance : ComplianceOutput
  draft_message : DraftMessageOutput
  research : Option ResearchOutput
deriving DecidableEq

/-- Mirrors `ConversationMessage` (types.ts lines 134–141). -/
structure ConversationMessage where
  id : String
  role : String
  content : String
  timestamp : String
  analysis : Option TriTieredOutput
  task_id : Option String
deriving DecidableEq

/-- Mirrors `AgentTask` (types.ts lines 79–90); same fields as the `agent_tasks`
table of the SQLite schema. -/
structure AgentTask where
  id : String
  client_id : Option String
  agent_type : String
  status : String
  input_data : Payload
  output_data : Payload
  advisor_action : Option String
  advisor_note : String
  created_at : String
  completed_at : Option String
deriving DecidableEq

/-- Mirrors `Alert` (types.ts lines 67–77); mirrors the `alerts` table. -/
structure Alert where
  id : String
  client_id : String
  client_name : String
  alert_type : String
  title : String
  description : String
  drafted_action : Payload
  status : String
  created_at : String
deriving DecidableEq

/-- Mirrors `RagEntry` (types.ts lines 50–56). -/
structure RagEntry where
  id : String
  client_id : String
  content : String
  source : String
  created_at : String
deriving DecidableEq

/-- Mirrors `Client` (types.ts lines 1–19). -/
structure Client where
  id : String
  name : String
  email : Option String
  phone : Option String
  province : String
  sin_last4 : Option String
  date_of_birth : String
  risk_profile : String
  goals : List String
  marital_status : Option String
  dependents : Nat
  employment_income : Rat
  employer : Option String
  onboarded_at : String
  advisor_notes : String
  total_portfolio : Option Rat
  pending_requests : Option Nat
deriving DecidableEq

/-- Mirrors `Account` (types.ts lines 21–29). -/
structure Account where
  id : String
  client_id : String
  accountType : String
  label : String
  balance : Rat
  contribution_room : Rat
  last_updated : String
deriving DecidableEq

/-- Mirrors `Document` (types.ts lines 31–39). -/
structure Document where
  id : String
  client_id : String
  docType : String
  content_text : String
  tax_year : Option Int
  file_path : String
  uploaded_at : String
deriving DecidableEq

/-- Mirrors `ChatMessage` (types.ts lines 41–48). -/
structure ChatMessage where
  id : String
  client_id : String
  role : String
  content : String
  status : String
  created_at : String
deriving DecidableEq

/-- Mirrors `ClientDetail` (types.ts lines 58–65). -/
structure ClientDetail where
  client : Client
  accounts : List Account
  documents : List Document
  chat_history : List ChatMessage
  rag_entries : List RagEntry
  total_portfolio : Rat
deriving DecidableEq

/-- One value of the `thinkingAgents` record (store.ts line 51). -/
structure ThinkingEntry where
  status : String
  description : String
deriving DecidableEq

/- ### The Zustand store, from `frontend/lib/store.ts` -/

/-- The client-side application state (`AppState`, store.ts lines 13–60).
The `thinkingAgents` JS object is modelled as a key-ordered association
list (object spread keeps an existing key in place and appends a new one). -/
structure AppState where
  clients : List Client
  selectedClientId : Option String
  clientDetail : Option ClientDetail
  alerts : List Alert
  agentTasks : List AgentTask
  conversation : List ConversationMessage
  artifactOpen : Bool
  currentAnalysis : Option TriTieredOutput
  currentTaskId : Option String
  isThinking : Bool
  thinkingStep : String
  thinkingAgents : List (String × ThinkingEntry)
  wsConnected : Bool
  activePanel : Option String
deriving DecidableEq

/-- store.ts line 128. -/
def setWsConnected (b : Bool) (s : AppState) : AppState := { s with wsConnected := b }

/-- store.ts line 85: `[task, ...s.agentTasks].slice(0, 20)`. -/
def addAgentTask (t : AgentTask) (s : AppState) : AppState :=
  { s with agentTasks := (t :: s.agentTasks).take 20 }

/-- Mirrors `Partial<AgentTask>`: each field optionally supplied; a supplied field
overwrites the old value under JS object spread `{ ...t, ...updates }`. -/
structure AgentTaskUpdate where
  id : Option String := none
  client_id : Option (Option String) := none
  agent_type : Option String := none
  status : Option String := none
  input_data : Option Payload := none
  output_data : Option Payload := none
  advisor_action : Option (Option String) := none
  advisor_note : Option String := none
  created_at : Option String := none
  completed_at : Option (Option String) := none
deriving DecidableEq

/-- JS object spread `{ ...t, ...u }` for an `AgentTask`. -/
def applyTaskUpdate (t : AgentTask) (u : AgentTaskUpdate) : AgentTask :=
  { id := u.id.getD t.id
    client_id := u.client_id.getD t.client_id
    agent_type := u.agent_type.getD t.agent_type
    status := u.status.getD t.status
    input_data := u.input_data.getD t.input_data
    output_data := u.output_data.getD t.output_data
    advisor_action := u.advisor_action.getD t.advisor_action
    advisor_note := u.advisor_note.getD t.advisor_note
    created_at := u.created_at.getD t.created_at
    completed_at := u.completed_at.getD t.completed_at }

/-- store.ts lines 86–89: map over the list, merging `updates` into the task
whose id matches. -/
def updateAgentTask (taskId : String) (u : AgentTaskUpdate) (s : AppState) : AppState :=
  { s with agentTasks := s.agentTasks.map (fun t => if t.id = taskId then applyTaskUpdate t u else t) }

/-- store.ts line 93: append to the conversation. -/
def addMessage (m : ConversationMessage) (s : AppState) : AppState :=
  { s with conversation := s.conversation ++ [m] }

/-- Mirrors `Partial<ConversationMessage>`. -/
structure MessageUpdate where
  id : Option String := none
  role : Option String := none
  content : Option String := none
  timestamp : Option String := none
  analysis : Option (Option TriTieredOutput) := none
  task_id : Option (Option String) := none
deriving DecidableEq

/-- JS object spread `{ ...m, ...u }` for a `ConversationMessage`. -/
def applyMessageUpdate (m : ConversationMessage) (u : MessageUpdate) : ConversationMessage :=
  { id := u.id.getD m.id
    role := u.role.getD m.role
    content := u.content.getD m.content
    timestamp := u.timestamp.getD m.timestamp
    analysis := u.analysis.getD m.analysis
    task_id := u.task_id.getD m.task_id }

/-- store.ts lines 94–97. -/
def updateMessage (msgId : String) (u : MessageUpdate) (s : AppState) : AppState :=
  { s with conversation := s.conversation.map (fun m => if m.id = msgId then applyMessageUpdate m u else m) }

/-- store.ts lines 108–112: setting the thinking flag also resets the
per-agent map and the step line. -/
def setIsThinking (b : Bool) (s : AppState) : AppState :=
  { s with isThinking := b
           thinkingAgents := []
           thinkingStep := if b then "Analyzing your question..." else "" }

/-- store.ts line 115. -/
def setThinkingStep (step : String) (s : AppState) : AppState := { s with thinkingStep := step }

/-- JS object property access `m[k]` on the association-list model. -/
def getEntry (m : List (String × ThinkingEntry)) (k : String) : Option ThinkingEntry :=
  match m with
  | [] => none
  | p :: rest => if p.1 = k then some p.2 else getEntry rest k

/-- JS object spread update `{ ...m, [k]: v }`: replace in place when the key
exists, append otherwise. -/
def upsertEntry (m : List (String × ThinkingEntry)) (k : String) (v : ThinkingEntry) :
    List (String × ThinkingEntry) :=
  if m.any (fun p => p.1 = k) then m.map (fun p => if p.1 = k then (k, v) else p)
  else m ++ [(k, v)]

/-- store.ts lines 118–124: `description || s.thinkingAgents[agent]?.description || ""`. -/
def setThinkingAgent (agent status : String) (description : Option String) (s : AppState) : AppState :=
  let existing := ((getEntry s.thinkingAgents agent).map ThinkingEntry.description).getD ""
  { s with thinkingAgents :=
      upsertEntry s.thinkingAgents agent ⟨status, jsOr (description.getD "") existing⟩ }

/-- store.ts line 103. -/
def setCurrentAnalysis (a : Option TriTieredOutput) (s : AppState) : AppState :=
  { s with currentAnalysis := a }

/-- store.ts line 105. -/
def setCurrentTaskId (i : Option String) (s : AppState) : AppState := { s with currentTaskId := i }

/-- store.ts line 100. -/
def setArtifactOpen (b : Bool) (s : AppState) : AppState := { s with artifactOpen := b }

/-- store.ts line 80. -/
def setAlerts (a : List Alert) (s : AppState) : AppState := { s with alerts := a }

/-- store.ts line 77. -/
def setClientDetail (d : Option ClientDetail) (s : AppState) : AppState := { s with clientDetail := d }

/- ### Artifact rendering, from `frontend/components/artifact/ArtifactPanel.tsx` -/

/-- The four artifact section kinds, in the names of the components that
render them. -/
inductive ArtifactSection
  | numbers
  | research
  | compliance
  | draft
deriving DecidableEq

/-- ArtifactPanel.tsx lines 36–43: the rendered section list for a displayed
analysis — `NumbersSection`, then `ResearchSection` only when
`currentAnalysis.research` is truthy, then `ComplianceSection`, then
`DraftMessage`. -/
def artifactSections (a : TriTieredOutput) : List ArtifactSection :=
  [ArtifactSection.numbers]
    ++ (match a.research with
        | some _ => [ArtifactSection.research]
        | none => [])
    ++ [ArtifactSection.compliance, ArtifactSection.draft]

/-- Which sections are present for a given analysis: the three required
fields always, research only when populated. -/
def sectionPresent (a : TriTieredOutput) : ArtifactSection → Bool
  | .numbers => true
  | .research => a.research.isSome
  | .compliance => true
  | .draft => true

/-- The fixed assembly order of the spec: numeric, research, compliance,
draft. -/
def canonicalSectionOrder : List ArtifactSection :=
  [ArtifactSection.numbers, ArtifactSection.research,
   ArtifactSection.compliance, ArtifactSection.draft]

/- ### Real-time message handling, from `frontend/hooks/useWebSocket.ts` -/

/-- The fields the handler extracts from the dynamic
`payload as Record<string, unknown>` value (useWebSocket.ts line 65), plus
the two whole-payload casts (`payload as unknown as TriTieredOutput` on
line 128 and the `alert_new` cast on line 143) and the whole payload viewed
as an opaque record (stored into `output_data` on lines 93 and 102). -/
structure WsPayload where
  description : Option String := none
  content : Option String := none
  analysis : Option TriTieredOutput := none
  step : Option String := none
  entries : Option (List RagEntry) := none
  entry_ids : Option (List String) := none
  message : Option String := none
  asRecord : Payload := []
  asAnalysis : Option TriTieredOutput := none
  asAlert : Option Alert := none
deriving DecidableEq

/-- The value a dynamic payload denotes when viewed as an `Alert` without
carrying any alert data (the JS cast never fails; an ill-formed payload is
still appended as-is by the `alert_new` case). -/
def blankAlert : Alert :=
  { id := "", client_id := "", client_name := "", alert_type := "", title := "",
    description := "", drafted_action := [], status := "", created_at := "" }

/-- An incoming WebSocket message (useWebSocket.ts lines 63–66). -/
structure WsMsg where
  msgType : String
  payload : WsPayload := {}
  client_id : Option String := none
  task_id : Option String := none
  agent : Option String := none
deriving DecidableEq

/-- useWebSocket.ts line 68: `!msgClientId || msgClientId === currentClientId`.
An absent or empty `client_id` is falsy, hence "for the current client". -/
def isForCurrentClient (msgClientId currentClientId : Option String) : Bool :=
  !(strTruthy msgClientId) || decide (msgClientId = currentClientId)

/-- The update record built in the `agent_update` case
(useWebSocket.ts lines 91–94). -/
def agentUpdateChanges (p : WsPayload) : AgentTaskUpdate :=
  { status := some "running", output_data := some p.asRecord }

/-- The update record built in the `agent_complete` case
(useWebSocket.ts lines 100–104); `completed_at` is stamped with the time
of delivery (`new Date().toISOString()`). -/
def agentCompleteChanges (p : WsPayload) (now : String) : AgentTaskUpdate :=
  { status := some "completed", output_data := some p.asRecord,
    completed_at := some (some now) }

/-- The task row created in the `agent_dispatch` case
(useWebSocket.ts lines 74–85). -/
def dispatchTask (msg : WsMsg) (now : String) : AgentTask :=
  { id := msg.task_id.getD ""
    client_id := msg.client_id
    agent_type := msg.agent.getD ""
    status := "running"
    input_data := []
    output_data := []
    advisor_action := none
    advisor_note := ""
    created_at := now
    completed_at := none }

/-- The `agent_dispatch` case body (useWebSocket.ts lines 71–88). -/
def handleAgentDispatch (now : String) (msg : WsMsg) (s : AppState) : AppState :=
  let description := msg.payload.description.getD ""
  setThinkingAgent (msg.agent.getD "") "running" (some description)
    (addAgentTask (dispatchTask msg now) s)

/-- The `agent_update` case body (useWebSocket.ts lines 89–97). -/
def handleAgentUpdate (msg : WsMsg) (s : AppState) : AppState :=
  setThinkingAgent (msg.agent.getD "") "running" none
    (updateAgentTask (msg.task_id.getD "") (agentUpdateChanges msg.payload) s)

/-- The `agent_complete` case body (useWebSocket.ts lines 98–107). -/
def handleAgentComplete (now : String) (msg : WsMsg) (s : AppState) : AppState :=
  setThinkingAgent (msg.agent.getD "") "completed" none
    (updateAgentTask (msg.task_id.getD "") (agentCompleteChanges msg.payload now) s)

/-- The `chat_response` case body (useWebSocket.ts lines 108–125). -/
def handleChatResponse (now uuid : String) (msg : WsMsg) (s : AppState) : AppState :=
  let s1 := setIsThinking false s
  let newMsg : ConversationMessage :=
    { id := uuid, role := "shadow", content := msg.payload.content.getD "",
      timestamp := now, analysis := none, task_id := msg.task_id }
  match msg.payload.analysis with
  | some a => addMessage { newMsg with analysis := some a } s1
  | none => addMessage newMsg (setArtifactOpen false s1)

/-- The `tri_tiered_output` case body (useWebSocket.ts lines 126–133). -/
def handleTriTiered (msg : WsMsg) (s : AppState) : AppState :=
  setArtifactOpen true
    (setCurrentTaskId msg.task_id
      (setCurrentAnalysis msg.payload.asAnalysis s))

/-- The `thinking` case body (useWebSocket.ts lines 134–141). -/
def handleThinking (msg : WsMsg) (s : AppState) : AppState :=
  let s1 := setIsThinking true s
  if strTruthy msg.payload.step then setThinkingStep (msg.payload.step.getD "") s1 else s1

/-- The `rag_updated` case body (useWebSocket.ts lines 147–158). -/
def handleRagUpdated (msg : WsMsg) (s : AppState) : AppState :=
  let newEntries := msg.payload.entries.getD []
  match s.clientDetail with
  | some d =>
      if newEntries.length > 0 then
        setClientDetail (some { d with rag_entries := d.rag_entries ++ newEntries }) s
      else s
  | none => s

/-- The `rag_deleted` case body (useWebSocket.ts lines 159–172). -/
def handleRagDeleted (msg : WsMsg) (s : AppState) : AppState :=
  let deletedIds := msg.payload.entry_ids.getD []
  match s.clientDetail with
  | some d =>
      if deletedIds.length > 0 then
        setClientDetail
          (some { d with rag_entries := d.rag_entries.filter (fun e => !(deletedIds.contains e.id)) }) s
      else s
  | none => s

/-- The `error` case body (useWebSocket.ts lines 173–183). -/
def handleError (now uuid : String) (msg : WsMsg) (s : AppState) : AppState :=
  addMessage
    { id := uuid, role := "shadow",
      content := jsOr (msg.payload.message.getD "") "Something went wrong. Please try again.",
      timestamp := now, analysis := none, task_id := none }
    (setIsThinking false s)

/-- The `handleMessage` callback (useWebSocket.ts lines 63–186), as a pure
state transformer.  The effectful inputs are explicit parameters: `now` is
`new Date().toISOString()`, `uuid` is `crypto.randomUUID()`, and
`alertsClosure` is the `alerts` list the callback closed over when it was
created — the callback is memoized with an empty dependency list (line 186),
so the `alert_new` case reads that captured list, not the current store
state; all other cases read the store freshly (`useAppStore.getState()`)
or only write.  The JS `switch` on `msg.type` is written as an if-chain,
with each case's body split into its own definition above. -/
def handleMessage (now uuid : String) (alertsClosure : List Alert)
    (msg : WsMsg) (s : AppState) : AppState :=
  let isFor := isForCurrentClient msg.client_id s.selectedClientId
  if msg.msgType = "agent_dispatch" then
    if !isFor then s else handleAgentDispatch now msg s
  else if msg.msgType = "agent_update" then
    if !isFor then s else handleAgentUpdate msg s
  else if msg.msgType = "agent_complete" then
    if !isFor then s else handleAgentComplete now msg s
  else if msg.msgType = "chat_response" then
    if !isFor then s else handleChatResponse now uuid msg s
  else if msg.msgType = "tri_tiered_output" then
    if !isFor then s else handleTriTiered msg s
  else if msg.msgType = "thinking" then
    if !isFor then s else handleThinking msg s
  else if msg.msgType = "alert_new" then
    setAlerts (alertsClosure ++ [msg.payload.asAlert.getD blankAlert]) s
  else if msg.msgType = "rag_updated" then
    if !isFor then s else handleRagUpdated msg s
  else if msg.msgType = "rag_deleted" then
    if !isFor then s else handleRagDeleted msg s
  else if msg.msgType = "error" then
    if !isFor then s else handleError now uuid msg s
  else s

/- ### Outgoing side: `sendMessage` of the hook and of the input bar -/

/-- The `WebSocket.readyState` values. -/
inductive ReadyState
  | connecting
  | wsOpen
  | closing
  | wsClosed
deriving DecidableEq

/-- The client→server message built by the input bar
(InputBar.tsx lines 45–49). -/
structure OutMsg where
  msgType : String
  client_id : String
  content : String
deriving DecidableEq

/-- The hook's `sendMessage` (useWebSocket.ts lines 188–192): transmit only
when the socket exists and `readyState === WebSocket.OPEN`; otherwise the
message is dropped — nothing is stored, queued, or raised.  `sent` is the
list of messages actually transmitted so far. -/
def wsSendIfOpen (rs : Option ReadyState) (sent : List OutMsg) (d : OutMsg) : List OutMsg :=
  if rs = some ReadyState.wsOpen then sent ++ [d] else sent

/-- The `sendMessage` of the input bar (InputBar.tsx lines 33–52): guard
`!content || !selectedClientId || isThinking` — a missing selection and the
empty-string id are both falsy — then append the advisor message locally,
set the thinking flag, and hand the request to the hook's `sendMessage`.
Returns the new store state and the new transmitted list. -/
def inputBarSendMessage (now uuid : String) (rs : Option ReadyState)
    (content : String) (s : AppState) (sent : List OutMsg) :
    AppState × List OutMsg :=
  if content = "" ∨ strTruthy s.selectedClientId = false ∨ s.isThinking then (s, sent)
  else
    let s1 := addMessage
      { id := uuid, role := "advisor", content := content, timestamp := now,
        analysis := none, task_id := none } s
    let s2 := setIsThinking true s1
    let sent1 := wsSendIfOpen rs sent
      { msgType := "chat_message", client_id := s.selectedClientId.getD "", content := content }
    (s2, sent1)

/- ### Connection lifecycle, from `useWebSocket.ts` and `AppShell` -/

/-- What the `ws.onopen` handler does and emits (useWebSocket.ts lines 35–41):
it marks the connection open and clears the pending reconnect timer.  The
hook holds no queue of events or messages (its only refs are `wsRef` and
`reconnectTimer`), so nothing is replayed, and the handler issues no request
on the synchronous query interface. -/
structure OpenResult where
  state : AppState
  reconnectTimer : Option Nat
  apiCalls : List String
  replayedEvents : List WsMsg
deriving DecidableEq

/-- The `ws.onopen` handler (useWebSocket.ts lines 35–41). -/
def onOpen (s : AppState) : OpenResult :=
  { state := setWsConnected true s
    reconnectTimer := none
    apiCalls := []
    replayedEvents := [] }

/-- The `ws.onclose` handler (useWebSocket.ts lines 43–46): mark disconnected and
schedule a reconnect attempt in 3000 ms. -/
def onClose (s : AppState) : AppState × Option Nat :=
  (setWsConnected false s, some 3000)

/-- The `AppShell` mount effect (AppShell, lines 524–544 of the layout file):
the only place the client fetches the entity list and open items over the
query interface — it runs on mount, not on reconnect. -/
def appShellMountApiCalls : List String :=
  ["/api/clients", "/api/alerts?status=pending"]

/- ### The `agent_tasks` and `alerts` CHECK constraints, from the SQLite
schema (`src/unnamed/part_000`) -/

/-- Schema line 60: `status IN ('pending', 'running', 'completed', 'failed')`. -/
def validTaskStatus (s : String) : Bool :=
  s = "pending" || s = "running" || s = "completed" || s = "failed"

/-- Schema line 63: `advisor_action IN ('approved', 'edited', 'rejected', NULL)`;
a NULL disposition (the spec's `none`) passes the CHECK. -/
def validAdvisorAction : Option String → Bool
  | none => true
  | some a => a = "approved" || a = "edited" || a = "rejected"

/-- A task row satisfying the `agent_tasks` CHECK constraints. -/
def validTaskRow (t : AgentTask) : Bool :=
  validTaskStatus t.status && validAdvisorAction t.advisor_action

/-- Schema line 76: `status IN ('pending', 'approved', 'rejected', 'dismissed')`
on the `alerts` table. -/
def validAlertStatus (s : String) : Bool :=
  s = "pending" || s = "approved" || s = "rejected" || s = "dismissed"

/- ### Spec-modelled backend operations.  The FastAPI backend (orchestrator,
task registry, scan engine) is part of this repository (`backend/` in the
README's project layout) but its files are not in the source tree given here;
the operations below are modelled from the specification text. -/

/-- Modelled from the spec: the outcome of `dispatch(entity_id, request_text)`
(§4.1 step 1) — accepted, or rejected with the `Busy` error. -/
inductive DispatchOutcome
  | accepted
  | busy
deriving DecidableEq

/-- Modelled from the spec: the orchestrator's mutual-exclusion state — the
set of entity ids with a dispatch currently in flight (§4.1 step 1, §5). -/
structure OrchState where
  inflight : List String
deriving DecidableEq

/-- Modelled from the spec: `dispatch` (§4.1 step 1) — reject with `Busy`,
changing nothing, when a dispatch for the same entity is already in flight;
otherwise take the per-entity lock. -/
def dispatch (entityId : String) (st : OrchState) : DispatchOutcome × OrchState :=
  if entityId ∈ st.inflight then (DispatchOutcome.busy, st)
  else (DispatchOutcome.accepted, { inflight := entityId :: st.inflight })

/-- Modelled from the spec: §4.1 step 8 — after the terminal composite event
the per-entity dispatch lock is released. -/
def completeDispatch (entityId : String) (st : OrchState) : OrchState :=
  { inflight := st.inflight.erase entityId }

/-- Modelled from the spec: a scan-cycle candidate finding (§4.5) — one rule
fires for one entity and proposes at most one `ActionableItem` of its kind. -/
structure Candidate where
  id : String
  client_id : String
  alert_type : String
  title : String
  description : String
  drafted_action : Payload
deriving DecidableEq

/-- An `ActionableItem` is open while it is still `pending` or `approved`
(§3, dedupe invariant). -/
def alertIsOpen (a : Alert) : Bool :=
  a.status = "pending" || a.status = "approved"

/-- Whether the store already holds an open item for this (entity, kind)
pair. -/
def hasOpenItem (alerts : List Alert) (clientId alertType : String) : Bool :=
  alerts.any (fun a => a.client_id = clientId && a.alert_type = alertType && alertIsOpen a)

/-- Modelled from the spec: reconciling one candidate (§4.5) — if an item with
the same (entity_id, kind) is already pending or approved, suppress (no
duplicate, no update); otherwise create the item as `pending`. -/
def reconcileCandidate (alerts : List Alert) (c : Candidate) : List Alert :=
  if hasOpenItem alerts c.client_id c.alert_type then alerts
  else alerts ++
    [{ id := c.id, client_id := c.client_id, client_name := "",
       alert_type := c.alert_type, title := c.title, description := c.description,
       drafted_action := c.drafted_action, status := "pending", created_at := "" }]

/-- Modelled from the spec: one scan cycle (§4.5) — evaluate the fixed rule
set and reconcile each candidate in turn; a cycle never removes or
auto-resolves existing items. -/
def scanCycle (alerts : List Alert) (cs : List Candidate) : List Alert :=
  cs.foldl reconcileCandidate alerts

/-- Modelled from the spec: Task Registry `create` (§4.3) — append the new
invocation row. -/
def registryCreate (r : List AgentTask) (t : AgentTask) : List AgentTask :=
  r ++ [t]

/-- Modelled from the spec: Task Registry `transition(id, status, output?)`
(§4.3) — update the matching row's status, output and completion time in
place. -/
def registryTransition (r : List AgentTask) (taskId status : String)
    (output : Option Payload) (completedAt : Option String) : List AgentTask :=
  r.map (fun t =>
    if t.id = taskId then
      { t with status := status, output_data := output.getD t.output_data,
               completed_at := completedAt }
    else t)

/-- Modelled from the spec: Task Registry `recordDisposition(id, disposition,
note)` (§4.3). -/
def registryRecordDisposition (r : List AgentTask) (taskId disposition note : String) :
    List AgentTask :=
  r.map (fun t =>
    if t.id = taskId then
      { t with advisor_action := some disposition, advisor_note := note }
    else t)

/- ### Sample data used by witnesses and counterexamples -/

/-- A concrete numbers section. -/
def sampleNumbers : NumbersOutput :=
  { summary := "Contribution room left: 13200", details := "room = limit - used",
    python_code := none }

/-- A concrete compliance section. -/
def sampleCompliance : ComplianceOutput := { status := "clear", items := [] }

/-- A concrete draft section. -/
def sampleDraft : DraftMessageOutput :=
  { sendTo := "client @ example", subject := "Check-in", body := "Hello",
    tone := "warm", rag_highlights := [] }

/-- A concrete research section. -/
def sampleResearch : ResearchOutput :=
  { summary := "Balanced mix", suggestions := [],
    asset_mix := { equity_pct := 60, fixed_income_pct := 30, alternatives_pct := 10 },
    account_strategy := none }

/-- An artifact whose research worker produced no output. -/
def analysisNoResearch : TriTieredOutput :=
  { numbers := sampleNumbers, compliance := sampleCompliance,
    draft_message := sampleDraft, research := none }

/-- A second research-free artifact with different section contents. -/
def analysisNoResearchAlt : TriTieredOutput :=
  { analysisNoResearch with
    numbers := { summary := "No data", details := "", python_code := none } }

/-- An artifact where all four workers completed. -/
def analysisWithResearch : TriTieredOutput :=
  { analysisNoResearch with research := some sampleResearch }

/-- The store state before anything happened. -/
def emptyAppState : AppState :=
  { clients := [], selectedClientId := none, clientDetail := none, alerts := [],
    agentTasks := [], conversation := [], artifactOpen := false,
    currentAnalysis := none, currentTaskId := none, isThinking := false,
    thinkingStep := "", thinkingAgents := [], wsConnected := false,
    activePanel := none }

/-- A task dispatched and currently running. -/
def sampleRunningTask : AgentTask :=
  { id := "t1", client_id := some "c1", agent_type := "quant",
    status := "running", input_data := [], output_data := [],
    advisor_action := none, advisor_note := "",
    created_at := "2025-02-01T00:00:00Z", completed_at := none }

/-- A freshly created pending task. -/
def samplePendingTask : AgentTask :=
  { sampleRunningTask with id := "t2", status := "pending" }

/-- A store state holding the one running task. -/
def oneTaskState : AppState := { emptyAppState with agentTasks := [sampleRunningTask] }

/-- A terminal `agent_complete` delivery for that task. -/
def completeMsg : WsMsg :=
  { msgType := "agent_complete", payload := { asRecord := [("result", "42")] },
    client_id := none, task_id := some "t1", agent := some "quant" }

/-- A lifecycle event addressed to entity c2. -/
def otherClientMsg : WsMsg :=
  { msgType := "agent_dispatch", payload := { description := some "crunching" },
    client_id := some "c2", task_id := some "t9", agent := some "quant" }

/-- A state in which entity c1 is selected. -/
def selectedClientState : AppState :=
  { emptyAppState with
    selectedClientId := some "c1"
    agentTasks := [sampleRunningTask]
    conversation := [{ id := "m1", role := "advisor", content := "hi",
                       timestamp := "2025-02-01T00:00:00Z", analysis := none,
                       task_id := none }] }

/- ### Shared helper lemmas -/

/-- Mapping a function that fixes every member of a list is the identity. -/
theorem mapNoop {α : Type} (f : α → α) (l : List α) (h : ∀ x ∈ l, f x = x) :
    l.map f = l := by
  induction l with
  | nil => rfl
  | cons x xs ih =>
      simp only [List.map_cons]
      rw [h x (List.mem_cons_self x xs), ih (fun y hy => h y (List.mem_cons_of_mem x hy))]

/-- An `Option.getD` applied to its own result collapses. -/
theorem optionGetDIdem {α : Type} (o : Option α) (a : α) :
    o.getD (o.getD a) = o.getD a := by cases o <;> rfl

/-- JS object spread with the same update record twice equals once. -/
theorem applyTaskUpdateIdem (t : AgentTask) (u : AgentTaskUpdate) :
    applyTaskUpdate (applyTaskUpdate t u) u = applyTaskUpdate t u := by
  simp [applyTaskUpdate, optionGetDIdem]

/- ### Claim C2 -/

/-- Claim C2: the artifact's sections are rendered in the fixed order
numbers → research (only when that worker produced output) → compliance →
draft: the rendered list is the canonical fixed order filtered by section
presence, and any two artifacts with the same presence set render the same
section sequence.  Worker completion order is not an input to the rendering
at all, so the section order is deterministic given the set of successfully
completed workers. -/
theorem artifact_section_order_fixed :
    (∀ a : TriTieredOutput,
      artifactSections a = canonicalSectionOrder.filter (sectionPresent a)) ∧
    (∀ a b : TriTieredOutput,
      (∀ k, sectionPresent a k = sectionPresent b k) →
      artifactSections a = artifactSections b) := by
  constructor
  · intro a
    cases h : a.research <;>
      simp [artifactSections, canonicalSectionOrder, sectionPresent, h]
  · intro a b hpres
    have hres := hpres ArtifactSection.research
    cases ha : a.research <;> cases hb : b.research <;>
      simp_all [artifactSections, sectionPresent]

/-- Witness for C2: two research-free artifacts with different section
contents render the identical section sequence. -/
theorem artifact_section_order_fixed_witness :
    artifactSections analysisNoResearch = artifactSections analysisNoResearchAlt :=
  artifact_section_order_fixed.2 analysisNoResearch analysisNoResearchAlt
    (by intro k; cases k <;> rfl)

/- ### Claim C3 -/

/-- Claim C3 counterexample: for a dispatch whose research worker did not
complete, the rendered artifact has no research section at all — the
section list is exactly numbers, compliance, draft.  The section is
silently omitted rather than shown with an explicit "unavailable" marker
(no such marker exists anywhere in the client), refuting the claim that a
failed or missing worker's section is never silently omitted. -/
theorem research_section_silently_omitted :
    ArtifactSection.research ∉ artifactSections analysisNoResearch ∧
    artifactSections analysisNoResearch =
      [ArtifactSection.numbers, ArtifactSection.compliance, ArtifactSection.draft] := by
  decide

/-- Claim C3 (amended): the numbers, compliance, and draft sections are
always rendered for any displayed artifact, and the research section is
rendered iff the artifact's research payload is populated; when the
research payload is absent the section is omitted entirely, with no
"unavailable" marker taking its place. -/
theorem artifact_sections_present_iff :
    ∀ a : TriTieredOutput,
      (ArtifactSection.research ∈ artifactSections a ↔ a.research.isSome = true) ∧
      ArtifactSection.numbers ∈ artifactSections a ∧
      ArtifactSection.compliance ∈ artifactSections a ∧
      ArtifactSection.draft ∈ artifactSections a := by
  intro a
  cases h : a.research <;> simp [artifactSections, h]

/- ### Claim C9 -/

/-- Claim C9: `updateAgentTask` and `updateMessage` are total and
frame-preserving when the id is absent — if no agent task (respectively no
conversation message) carries the given id, the update leaves the entire
store state unchanged: no error, no insertion, no reordering. -/
theorem update_on_missing_id_is_noop :
    (∀ (taskId : String) (u : AgentTaskUpdate) (s : AppState),
      (∀ t ∈ s.agentTasks, t.id ≠ taskId) → updateAgentTask taskId u s = s) ∧
    (∀ (msgId : String) (u : MessageUpdate) (s : AppState),
      (∀ m ∈ s.conversation, m.id ≠ msgId) → updateMessage msgId u s = s) := by
  constructor
  · intro taskId u s h
    unfold updateAgentTask
    rw [mapNoop _ _ (fun t ht => if_neg (h t ht))]
  · intro msgId u s h
    unfold updateMessage
    rw [mapNoop _ _ (fun m hm => if_neg (h m hm))]

/-- Witness for C9: updating an id that is in neither list leaves the
concrete state untouched. -/
theorem update_on_missing_id_is_noop_witness :
    updateAgentTask "missing" {} selectedClientState = selectedClientState ∧
    updateMessage "missing" {} selectedClientState = selectedClientState :=
  ⟨update_on_missing_id_is_noop.1 "missing" {} selectedClientState (by decide),
   update_on_missing_id_is_noop.2 "missing" {} selectedClientState (by decide)⟩

/- ### Claim C10 -/

/-- Claim C10: if the socket is not in the OPEN state, the outgoing request
is silently dropped — the transmitted list is unchanged, nothing is queued
and no error is raised — while the input bar still appends the advisor's
message to the local conversation and sets the thinking flag, even though
no request reached the server.  (A truthy — present and non-empty —
selected client id is required, or the input bar's guard returns before
doing anything.) -/
theorem disconnected_send_drops_but_updates_local :
    ∀ (now uuid content : String) (rs : Option ReadyState) (s : AppState)
      (sent : List OutMsg) (c : String),
      rs ≠ some ReadyState.wsOpen → content ≠ "" → s.selectedClientId = some c →
      c ≠ "" → s.isThinking = false →
      (inputBarSendMessage now uuid rs content s sent).2 = sent ∧
      (inputBarSendMessage now uuid rs content s sent).1.conversation =
        s.conversation ++ [{ id := uuid, role := "advisor", content := content,
                             timestamp := now, analysis := none, task_id := none }] ∧
      (inputBarSendMessage now uuid rs content s sent).1.isThinking = true := by
  intro now uuid content rs s sent c hrs hc hsel hcne hth
  unfold inputBarSendMessage
  rw [if_neg (by simp [hc, hsel, hth, strTruthy, hcne])]
  refine ⟨?_, ?_, ?_⟩
  · simp [wsSendIfOpen, if_neg hrs]
  · simp [setIsThinking, addMessage]
  · simp [setIsThinking]

/-- Witness for C10: a concrete submission over a closed socket transmits
nothing but appends the advisor message and starts the thinking state. -/
theorem disconnected_send_witness :
    (inputBarSendMessage "T3" "u7" (some ReadyState.wsClosed) "review please"
        selectedClientState []).2 = [] ∧
    (inputBarSendMessage "T3" "u7" (some ReadyState.wsClosed) "review please"
        selectedClientState []).1.conversation =
      selectedClientState.conversation ++
        [{ id := "u7", role := "advisor", content := "review please",
           timestamp := "T3", analysis := none, task_id := none }] ∧
    (inputBarSendMessage "T3" "u7" (some ReadyState.wsClosed) "review please"
        selectedClientState []).1.isThinking = true :=
  disconnected_send_drops_but_updates_local "T3" "u7" "review please"
    (some ReadyState.wsClosed) selectedClientState [] "c1"
    (by decide) (by decide) (by decide) (by decide) (by decide)

/- ### Claim C6 -/

/-- Claim C6 counterexample: the reconnect (open) handler of the hook issues
no request on the synchronous query interface and replays no events — the
client does not re-fetch current state after a reconnect, refuting the
second half of the claim.  (The query interface is exercised only by the
AppShell mount effect and on entity selection.) -/
theorem reconnect_does_not_refetch :
    (onOpen selectedClientState).apiCalls = [] ∧
    (onOpen selectedClientState).replayedEvents = [] ∧
    (onOpen selectedClientState).state.conversation = selectedClientState.conversation ∧
    appShellMountApiCalls ≠ [] := by
  refine ⟨rfl, rfl, rfl, by decide⟩

/-- Claim C6 (amended): when the real-time connection drops, no events are
queued or replayed on the next connection — a message handed to the hook
while the socket is not open is dropped, and the open handler delivers no
stored events; but the client does not re-fetch state through the query
interface on reconnect: the open handler only marks the connection open and
clears the reconnect timer, while the close handler schedules a reconnect
attempt after 3000 ms. -/
theorem no_queue_no_replay_no_refetch :
    ∀ (rs : Option ReadyState) (sent : List OutMsg) (d : OutMsg) (s : AppState),
      rs ≠ some ReadyState.wsOpen →
      wsSendIfOpen rs sent d = sent ∧
      (onOpen s).replayedEvents = [] ∧
      (onOpen s).apiCalls = [] ∧
      (onOpen s).state = setWsConnected true s ∧
      (onOpen s).reconnectTimer = none ∧
      onClose s = (setWsConnected false s, some 3000) := by
  intro rs sent d s hrs
  refine ⟨?_, rfl, rfl, rfl, rfl, rfl⟩
  simp [wsSendIfOpen, if_neg hrs]

/-- Witness for C6 (amended): a concrete message handed to a closed socket
is dropped and the concrete open handler fetches nothing. -/
theorem no_queue_no_replay_no_refetch_witness :
    wsSendIfOpen (some ReadyState.wsClosed) []
        { msgType := "chat_message", client_id := "c1", content := "hi" } = [] ∧
    (onOpen emptyAppState).replayedEvents = [] ∧
    (onOpen emptyAppState).apiCalls = [] ∧
    (onOpen emptyAppState).state = setWsConnected true emptyAppState ∧
    (onOpen emptyAppState).reconnectTimer = none ∧
    onClose emptyAppState = (setWsConnected false emptyAppState, some 3000) :=
  no_queue_no_replay_no_refetch (some ReadyState.wsClosed) []
    { msgType := "chat_message", client_id := "c1", content := "hi" }
    emptyAppState (by decide)

/- ### Claim C1 -/

/-- Claim C1: at most one dispatch is in flight per entity.  A dispatch
requested while one is already in flight for the same entity is rejected
with `Busy` and leaves the orchestrator state unchanged; both `dispatch`
and `completeDispatch` preserve the no-duplicate-entry invariant of the
lock; and once the in-flight dispatch completes and releases the lock, a
subsequent dispatch for that entity is accepted. -/
theorem at_most_one_dispatch_per_entity :
    ∀ (e : String) (st : OrchState),
      (e ∈ st.inflight → dispatch e st = (DispatchOutcome.busy, st)) ∧
      (st.inflight.Nodup → (dispatch e st).2.inflight.Nodup ∧
        (completeDispatch e st).inflight.Nodup) ∧
      (st.inflight.Nodup →
        (dispatch e (completeDispatch e (dispatch e st).2)).1 =
          DispatchOutcome.accepted) := by
  intro e st
  refine ⟨fun he => by simp [dispatch, he], fun hd => ⟨?_, ?_⟩, fun hd => ?_⟩
  · by_cases he : e ∈ st.inflight
    · simp [dispatch, he, hd]
    · simp [dispatch, he, hd]
  · exact List.Nodup.erase e hd
  · by_cases he : e ∈ st.inflight
    · have : e ∉ st.inflight.erase e := fun hmem =>
        ((List.Nodup.mem_erase_iff hd).mp hmem).1 rfl
      simp [dispatch, completeDispatch, he, this]
    · simp [dispatch, completeDispatch, he, List.erase_cons_head]

/-- Witness for C1: with a dispatch in flight for c1, a second dispatch for
c1 is rejected with `Busy` and no state change; after completion a third
dispatch for c1 is accepted. -/
theorem at_most_one_dispatch_witness :
    dispatch "c1" { inflight := ["c1"] } =
      (DispatchOutcome.busy, { inflight := ["c1"] }) ∧
    (dispatch "c1" (completeDispatch "c1"
        (dispatch "c1" { inflight := ["c1"] }).2)).1 = DispatchOutcome.accepted :=
  ⟨(at_most_one_dispatch_per_entity "c1" { inflight := ["c1"] }).1 (by decide),
   (at_most_one_dispatch_per_entity "c1" { inflight := ["c1"] }).2.2 (by decide)⟩

/- ### Claim C4 -/

/-- After reconciling a candidate, an open item for its (entity, kind) pair
exists: either it already did, or the newly created pending item supplies
it. -/
theorem hasOpenAfterReconcile (alerts : List Alert) (c : Candidate) :
    hasOpenItem (reconcileCandidate alerts c) c.client_id c.alert_type = true := by
  unfold reconcileCandidate
  by_cases h : hasOpenItem alerts c.client_id c.alert_type = true
  · simp [h]
  · rw [if_neg h]
    unfold hasOpenItem at *
    simp [List.any_append, alertIsOpen]

/-- Reconciling never loses an existing open item for any pair. -/
theorem hasOpenMonotone (alerts : List Alert) (c : Candidate) (p k : String)
    (h : hasOpenItem alerts p k = true) :
    hasOpenItem (reconcileCandidate alerts c) p k = true := by
  unfold reconcileCandidate
  by_cases hc : hasOpenItem alerts c.client_id c.alert_type = true
  · simp [hc, h]
  · rw [if_neg hc]
    unfold hasOpenItem at *
    simp [List.any_append, h]

/-- A whole scan cycle never loses an existing open item for any pair. -/
theorem hasOpenCycleMonotone (cs : List Candidate) (alerts : List Alert) (p k : String)
    (h : hasOpenItem alerts p k = true) :
    hasOpenItem (scanCycle alerts cs) p k = true := by
  induction cs generalizing alerts with
  | nil => exact h
  | cons c rest ih => exact ih (reconcileCandidate alerts c) (hasOpenMonotone alerts c p k h)

/-- After one scan cycle, every scanned candidate's pair has an open item. -/
theorem allPairsOpenAfterCycle (cs : List Candidate) (alerts : List Alert) :
    ∀ c ∈ cs, hasOpenItem (scanCycle alerts cs) c.client_id c.alert_type = true := by
  induction cs generalizing alerts with
  | nil => intro c hc; cases hc
  | cons d rest ih =>
      intro c hc
      rcases List.mem_cons.mp hc with hcd | hcr
      · subst hcd
        exact hasOpenCycleMonotone rest (reconcileCandidate alerts c)
          c.client_id c.alert_type (hasOpenAfterReconcile alerts c)
      · exact ih (reconcileCandidate alerts d) c hcr

/-- A cycle over candidates whose pairs all already have open items changes
nothing. -/
theorem cycleNoopOfAllOpen (cs : List Candidate) (alerts : List Alert)
    (h : ∀ c ∈ cs, hasOpenItem alerts c.client_id c.alert_type = true) :
    scanCycle alerts cs = alerts := by
  induction cs with
  | nil => rfl
  | cons d rest ih =>
      have hd : reconcileCandidate alerts d = alerts := by
        unfold reconcileCandidate
        rw [if_pos (h d (List.mem_cons_self d rest))]
      show scanCycle (reconcileCandidate alerts d) rest = alerts
      rw [hd]
      exact ih (fun c hc => h c (List.mem_cons_of_mem d hc))

/-- Claim C4: at most one open ActionableItem per (entity, kind).  A scan
candidate arriving while an item with the same pair is still pending or
approved is suppressed — no item is created and the existing ones are left
untouched — and running a second consecutive scan cycle over the same
candidate set with no intervening advisor action changes nothing, so no
duplicate item arises for any pair. -/
theorem scan_dedupe_idempotent :
    (∀ (alerts : List Alert) (c : Candidate),
      hasOpenItem alerts c.client_id c.alert_type = true →
      reconcileCandidate alerts c = alerts) ∧
    (∀ (alerts : List Alert) (cs : List Candidate),
      scanCycle (scanCycle alerts cs) cs = scanCycle alerts cs) := by
  constructor
  · intro alerts c h
    unfold reconcileCandidate
    rw [if_pos h]
  · intro alerts cs
    exact cycleNoopOfAllOpen cs (scanCycle alerts cs) (allPairsOpenAfterCycle cs alerts)

/-- A pending idle-cash item for entity cX. -/
def idleCashAlert : Alert :=
  { id := "a1", client_id := "cX", client_name := "X", alert_type := "idle_cash",
    title := "Idle cash", description := "Cash sitting idle",
    drafted_action := [], status := "pending", created_at := "2025-02-01T00:00:00Z" }

/-- A fresh idle-cash candidate for the same entity. -/
def idleCashCandidate : Candidate :=
  { id := "a2", client_id := "cX", alert_type := "idle_cash",
    title := "Idle cash", description := "Cash sitting idle", drafted_action := [] }

/-- Witness for C4: with a pending idle-cash item for cX outstanding, a new
idle-cash finding for cX creates nothing and updates nothing. -/
theorem scan_dedupe_idempotent_witness :
    reconcileCandidate [idleCashAlert] idleCashCandidate = [idleCashAlert] :=
  scan_dedupe_idempotent.1 [idleCashAlert] idleCashCandidate (by decide)

/- ### Claim C5 support -/

/-- The `jsOr` of an empty left operand yields the right operand. -/
theorem jsOrEmpty (x : String) : jsOr "" x = x := by simp [jsOr]

/-- Replacing the pairs keyed `k` finds `(k, v)` at the first occurrence. -/
theorem getEntryMapReplace (m : List (String × ThinkingEntry)) (k : String)
    (v : ThinkingEntry) (h : m.any (fun p => p.1 = k) = true) :
    getEntry (m.map (fun p => if p.1 = k then (k, v) else p)) k = some v := by
  induction m with
  | nil => simp at h
  | cons p rest ih =>
      by_cases hp : p.1 = k
      · simp [getEntry, hp]
      · simp only [List.any_cons, Bool.or_eq_true, decide_eq_true_eq] at h
        have hrest := h.resolve_left hp
        simp only [List.map_cons, if_neg hp, getEntry]
        exact ih hrest

/-- Appending `(k, v)` to a list without key `k` makes lookup find it. -/
theorem getEntryAppendOfNone (m : List (String × ThinkingEntry)) (k : String)
    (v : ThinkingEntry) (h : m.any (fun p => p.1 = k) = false) :
    getEntry (m ++ [(k, v)]) k = some v := by
  induction m with
  | nil => simp [getEntry]
  | cons p rest ih =>
      simp only [List.any_cons, Bool.or_eq_false_iff, decide_eq_false_iff_not] at h
      simp only [List.cons_append, getEntry, if_neg h.1]
      exact ih (by simpa using h.2)

/-- Lookup after upsert finds the upserted value. -/
theorem getEntryUpsert (m : List (String × ThinkingEntry)) (k : String) (v : ThinkingEntry) :
    getEntry (upsertEntry m k v) k = some v := by
  unfold upsertEntry
  by_cases h : m.any (fun p => p.1 = k) = true
  · rw [if_pos h]; exact getEntryMapReplace m k v h
  · rw [if_neg h]
    exact getEntryAppendOfNone m k v (Bool.eq_false_iff.mpr h)

/-- Every pair keyed `k` in an upsert result is exactly `(k, v)`. -/
theorem upsertKeyVal (m : List (String × ThinkingEntry)) (k : String) (v : ThinkingEntry) :
    ∀ p ∈ upsertEntry m k v, p.1 = k → p = (k, v) := by
  intro p hp hk
  unfold upsertEntry at hp
  by_cases h : m.any (fun q => q.1 = k) = true
  · rw [if_pos h] at hp
    rcases List.mem_map.mp hp with ⟨q, _, hqe⟩
    by_cases hq1 : q.1 = k
    · rw [if_pos hq1] at hqe; exact hqe.symm
    · rw [if_neg hq1] at hqe; subst hqe; exact absurd hk hq1
  · rw [if_neg h] at hp
    rcases List.mem_append.mp hp with hm | hs
    · exact absurd (List.any_eq_true.mpr ⟨p, hm, by simp [hk]⟩) h
    · simpa using hs

/-- An upsert result always contains key `k`. -/
theorem upsertHasKey (m : List (String × ThinkingEntry)) (k : String) (v : ThinkingEntry) :
    (upsertEntry m k v).any (fun p => p.1 = k) = true := by
  unfold upsertEntry
  by_cases h : m.any (fun q => q.1 = k) = true
  · rw [if_pos h]
    rcases List.any_eq_true.mp h with ⟨q, hq, hq1⟩
    simp only [decide_eq_true_eq] at hq1
    exact List.any_eq_true.mpr ⟨(k, v), List.mem_map.mpr ⟨q, hq, by rw [if_pos hq1]⟩, by simp⟩
  · rw [if_neg h]
    exact List.any_eq_true.mpr ⟨(k, v), List.mem_append.mpr (Or.inr (by simp)), by simp⟩

/-- When the key is present, upsert is the in-place replacement map. -/
theorem upsertOfHasKey (m : List (String × ThinkingEntry)) (k : String) (v : ThinkingEntry)
    (h : m.any (fun p => p.1 = k) = true) :
    upsertEntry m k v = m.map (fun p => if p.1 = k then (k, v) else p) := by
  unfold upsertEntry; rw [if_pos h]

/-- Upserting the same value twice equals once. -/
theorem upsertEntryIdem (m : List (String × ThinkingEntry)) (k : String) (v : ThinkingEntry) :
    upsertEntry (upsertEntry m k v) k v = upsertEntry m k v := by
  rw [upsertOfHasKey _ _ _ (upsertHasKey m k v)]
  apply mapNoop
  intro p hp
  by_cases hp1 : p.1 = k
  · rw [if_pos hp1]; exact (upsertKeyVal m k v p hp hp1).symm
  · rw [if_neg hp1]

/-- The per-task update function of `updateAgentTask` is idempotent. -/
theorem updateFnIdem (tid : String) (u : AgentTaskUpdate) (t : AgentTask) :
    (fun x => if x.id = tid then applyTaskUpdate x u else x)
      ((fun x => if x.id = tid then applyTaskUpdate x u else x) t) =
    (fun x => if x.id = tid then applyTaskUpdate x u else x) t := by
  by_cases h : t.id = tid
  · simp only [if_pos h]
    by_cases h2 : (applyTaskUpdate t u).id = tid
    · simp only [if_pos h2]; exact applyTaskUpdateIdem t u
    · simp only [if_neg h2]
  · simp only [if_neg h]

/-- Mapping an idempotent function twice equals mapping it once. -/
theorem mapIdemOfIdem {α : Type} (f : α → α) (hf : ∀ x, f (f x) = f x) (l : List α) :
    (l.map f).map f = l.map f := by
  induction l with
  | nil => rfl
  | cons x xs ih => simp only [List.map_cons, hf x, ih]

/-- Two rewrites that agree on the range of a first rewrite give the same
second pass. -/
theorem mapAfterMapCongr {α : Type} (f1 f2 g : α → α)
    (h : ∀ x, f2 (f1 x) = g (f1 x)) (l : List α) :
    (l.map f1).map f2 = (l.map f1).map g := by
  induction l with
  | nil => rfl
  | cons x xs ih => simp only [List.map_cons, h x, ih]

/- ### Claim C5 -/

/-- Claim C5 counterexample: delivering the same terminal `agent_complete`
transition (same task, same output payload) a second time is not a no-op —
the handler re-stamps the task's `completed_at` with the time of the
duplicate delivery (`new Date().toISOString()` at useWebSocket.ts line 103),
so the recorded state after a redelivery five seconds later differs from
the state after the first delivery. -/
theorem duplicate_complete_restamps_timestamp :
    handleMessage "2025-02-01T00:00:05Z" "u2" [] completeMsg
        (handleMessage "2025-02-01T00:00:00Z" "u1" [] completeMsg oneTaskState) ≠
      handleMessage "2025-02-01T00:00:00Z" "u1" [] completeMsg oneTaskState := by
  decide

/-- Claim C5 (amended): replaying the same terminal transition is a no-op
when the duplicate arrives carrying the same delivery timestamp; a
duplicate delivered at a later instant changes exactly one thing — the
state after the duplicate equals the state after the first delivery with
only the matching task's `completed_at` re-stamped to the later delivery
time (every other field of every task, and every other component of the
state, is unchanged); and a duplicate for an unselected entity is ignored
outright, like the original. -/
theorem duplicate_complete_idempotent_up_to_timestamp :
    ∀ (now now2 uuid uuid2 : String) (a0 a1 : List Alert) (msg : WsMsg) (s : AppState),
      msg.msgType = "agent_complete" →
      handleMessage now uuid2 a1 msg (handleMessage now uuid a0 msg s) =
        handleMessage now uuid a0 msg s ∧
      handleMessage now2 uuid2 a1 msg (handleMessage now uuid a0 msg s) =
        (if isForCurrentClient msg.client_id s.selectedClientId then
          { handleMessage now uuid a0 msg s with
            agentTasks := (handleMessage now uuid a0 msg s).agentTasks.map
              (fun t => if t.id = msg.task_id.getD "" then
                { t with completed_at := some now2 } else t) }
        else handleMessage now uuid a0 msg s) := by
  intro now now2 uuid uuid2 a0 a1 msg s htype
  have hreduce : ∀ (n u : String) (a : List Alert) (st : AppState),
      handleMessage n u a msg st =
        if !(isForCurrentClient msg.client_id st.selectedClientId) then st else
          setThinkingAgent (msg.agent.getD "") "completed" none
            (updateAgentTask (msg.task_id.getD "") (agentCompleteChanges msg.payload n) st) := by
    intro n u a st
    unfold handleMessage handleAgentComplete
    rw [htype]
    rw [if_neg (by decide), if_neg (by decide), if_pos rfl]
  by_cases hfor : isForCurrentClient msg.client_id s.selectedClientId = true
  · have hsel : ∀ n,
        (setThinkingAgent (msg.agent.getD "") "completed" none
          (updateAgentTask (msg.task_id.getD "") (agentCompleteChanges msg.payload n) s)).selectedClientId
          = s.selectedClientId := fun _ => rfl
    rw [hreduce now uuid a0 s, if_neg (by simp [hfor])]
    constructor
    · rw [hreduce now uuid2 a1 _, if_neg (by simp [hsel now, hfor])]
      have htasks :
          (s.agentTasks.map (fun t => if t.id = msg.task_id.getD "" then
              applyTaskUpdate t (agentCompleteChanges msg.payload now) else t)).map
            (fun t => if t.id = msg.task_id.getD "" then
              applyTaskUpdate t (agentCompleteChanges msg.payload now) else t) =
          s.agentTasks.map (fun t => if t.id = msg.task_id.getD "" then
              applyTaskUpdate t (agentCompleteChanges msg.payload now) else t) :=
        mapIdemOfIdem _ (updateFnIdem (msg.task_id.getD "") (agentCompleteChanges msg.payload now))
          s.agentTasks
      simp [setThinkingAgent, updateAgentTask, jsOrEmpty, getEntryUpsert,
        upsertEntryIdem, htasks]
    · rw [hreduce now2 uuid2 a1 _, if_neg (by simp [hsel now, hfor]), if_pos hfor]
      have hpt : ∀ t : AgentTask,
          (fun x => if x.id = msg.task_id.getD "" then
              applyTaskUpdate x (agentCompleteChanges msg.payload now2) else x)
            ((fun x => if x.id = msg.task_id.getD "" then
              applyTaskUpdate x (agentCompleteChanges msg.payload now) else x) t) =
          (fun x => if x.id = msg.task_id.getD "" then
              { x with completed_at := some now2 } else x)
            ((fun x => if x.id = msg.task_id.getD "" then
              applyTaskUpdate x (agentCompleteChanges msg.payload now) else x) t) := by
        intro t
        by_cases h : t.id = msg.task_id.getD ""
        · simp only [if_pos h]
          have hid : (applyTaskUpdate t (agentCompleteChanges msg.payload now)).id = t.id := rfl
          rw [if_pos (hid.trans h), if_pos (hid.trans h)]
          rfl
        · simp only [if_neg h]
      have htasks2 := mapAfterMapCongr
        (fun x => if x.id = msg.task_id.getD "" then
            applyTaskUpdate x (agentCompleteChanges msg.payload now) else x)
        (fun x => if x.id = msg.task_id.getD "" then
            applyTaskUpdate x (agentCompleteChanges msg.payload now2) else x)
        (fun x => if x.id = msg.task_id.getD "" then
            { x with completed_at := some now2 } else x)
        hpt s.agentTasks
      simp [setThinkingAgent, updateAgentTask, jsOrEmpty, getEntryUpsert,
        upsertEntryIdem, htasks2]
  · have hfor2 : isForCurrentClient msg.client_id s.selectedClientId = false :=
      Bool.eq_false_iff.mpr hfor
    rw [hreduce now uuid a0 s, if_pos (by simp [hfor2])]
    rw [hreduce now uuid2 a1 s, if_pos (by simp [hfor2]),
        hreduce now2 uuid2 a1 s, if_pos (by simp [hfor2])]
    rw [if_neg hfor]
    exact ⟨rfl, rfl⟩

/-- Witness for C5 (amended): a concrete duplicate delivery with the same
timestamp reproduces the exact state of the first delivery. -/
theorem duplicate_complete_same_time_witness :
    handleMessage "2025-02-01T00:00:00Z" "u2" [] completeMsg
        (handleMessage "2025-02-01T00:00:00Z" "u1" [] completeMsg oneTaskState) =
      handleMessage "2025-02-01T00:00:00Z" "u1" [] completeMsg oneTaskState :=
  (duplicate_complete_idempotent_up_to_timestamp "2025-02-01T00:00:00Z"
    "2025-02-01T00:00:05Z" "u1" "u2" [] [] completeMsg oneTaskState rfl).1

/- ### Claim C7 -/

set_option maxHeartbeats 1600000 in
/-- Claim C7: lifecycle and progress events are multiplexed per entity while
new-ActionableItem events are global.  Any event carrying a (non-empty)
`client_id` different from the selected entity leaves the conversation, the
agent task list, the thinking state (flag, step and per-agent map), and the
artifact state (current analysis, current task id, open flag) unchanged;
an `alert_new` event updates the alerts list regardless of which entity is
selected. -/
theorem lifecycle_events_multiplexed_per_entity :
    ∀ (now uuid : String) (alertsClosure : List Alert) (msg : WsMsg) (s : AppState) (c : String),
      msg.client_id = some c → c ≠ "" → s.selectedClientId ≠ some c →
      ((handleMessage now uuid alertsClosure msg s).conversation = s.conversation ∧
       (handleMessage now uuid alertsClosure msg s).agentTasks = s.agentTasks ∧
       (handleMessage now uuid alertsClosure msg s).isThinking = s.isThinking ∧
       (handleMessage now uuid alertsClosure msg s).thinkingStep = s.thinkingStep ∧
       (handleMessage now uuid alertsClosure msg s).thinkingAgents = s.thinkingAgents ∧
       (handleMessage now uuid alertsClosure msg s).currentAnalysis = s.currentAnalysis ∧
       (handleMessage now uuid alertsClosure msg s).currentTaskId = s.currentTaskId ∧
       (handleMessage now uuid alertsClosure msg s).artifactOpen = s.artifactOpen) ∧
      (msg.msgType = "alert_new" →
        (handleMessage now uuid alertsClosure msg s).alerts =
          alertsClosure ++ [msg.payload.asAlert.getD blankAlert]) := by
  intro now uuid alertsClosure msg s c hc hcne hsel
  have hne2 : ¬ (some c = s.selectedClientId) := fun h => hsel h.symm
  have hfor : isForCurrentClient msg.client_id s.selectedClientId = false := by
    simp [isForCurrentClient, strTruthy, hc, hcne, hne2]
  have hred : handleMessage now uuid alertsClosure msg s =
      if msg.msgType = "alert_new" then
        setAlerts (alertsClosure ++ [msg.payload.asAlert.getD blankAlert]) s
      else s := by
    unfold handleMessage
    rw [hfor]
    simp only [Bool.not_false, eq_self_iff_true, if_true]
    split_ifs <;> first | rfl | simp_all
  rw [hred]
  by_cases halert : msg.msgType = "alert_new"
  · rw [if_pos halert]
    exact ⟨⟨rfl, rfl, rfl, rfl, rfl, rfl, rfl, rfl⟩, fun _ => rfl⟩
  · rw [if_neg halert]
    exact ⟨⟨rfl, rfl, rfl, rfl, rfl, rfl, rfl, rfl⟩, fun h => absurd h halert⟩

/-- Witness for C7: a dispatch event for entity c2 received while c1 is
selected changes none of the per-entity view state. -/
theorem lifecycle_events_multiplexed_witness :
    ((handleMessage "T4" "u8" [] otherClientMsg selectedClientState).conversation =
        selectedClientState.conversation ∧
     (handleMessage "T4" "u8" [] otherClientMsg selectedClientState).agentTasks =
        selectedClientState.agentTasks ∧
     (handleMessage "T4" "u8" [] otherClientMsg selectedClientState).isThinking =
        selectedClientState.isThinking ∧
     (handleMessage "T4" "u8" [] otherClientMsg selectedClientState).thinkingStep =
        selectedClientState.thinkingStep ∧
     (handleMessage "T4" "u8" [] otherClientMsg selectedClientState).thinkingAgents =
        selectedClientState.thinkingAgents ∧
     (handleMessage "T4" "u8" [] otherClientMsg selectedClientState).currentAnalysis =
        selectedClientState.currentAnalysis ∧
     (handleMessage "T4" "u8" [] otherClientMsg selectedClientState).currentTaskId =
        selectedClientState.currentTaskId ∧
     (handleMessage "T4" "u8" [] otherClientMsg selectedClientState).artifactOpen =
        selectedClientState.artifactOpen) ∧
    (otherClientMsg.msgType = "alert_new" →
      (handleMessage "T4" "u8" [] otherClientMsg selectedClientState).alerts =
        [] ++ [otherClientMsg.payload.asAlert.getD blankAlert]) :=
  lifecycle_events_multiplexed_per_entity "T4" "u8" [] otherClientMsg
    selectedClientState "c2" rfl (by decide) (by decide)

/- ### Claim C8 support -/

/-- The view-state setters do not touch the task list. -/
@[simp] theorem setThinkingAgentTasks (a st : String) (d : Option String) (s : AppState) :
    (setThinkingAgent a st d s).agentTasks = s.agentTasks := rfl

/-- Appending a chat message does not touch the task list. -/
@[simp] theorem addMessageTasks (m : ConversationMessage) (s : AppState) :
    (addMessage m s).agentTasks = s.agentTasks := rfl

/-- Toggling the thinking flag does not touch the task list. -/
@[simp] theorem setIsThinkingTasks (b : Bool) (s : AppState) :
    (setIsThinking b s).agentTasks = s.agentTasks := rfl

/-- Toggling the artifact panel does not touch the task list. -/
@[simp] theorem setArtifactOpenTasks (b : Bool) (s : AppState) :
    (setArtifactOpen b s).agentTasks = s.agentTasks := rfl

/-- Replacing the current analysis does not touch the task list. -/
@[simp] theorem setCurrentAnalysisTasks (a : Option TriTieredOutput) (s : AppState) :
    (setCurrentAnalysis a s).agentTasks = s.agentTasks := rfl

/-- Replacing the current task id does not touch the task list. -/
@[simp] theorem setCurrentTaskIdTasks (i : Option String) (s : AppState) :
    (setCurrentTaskId i s).agentTasks = s.agentTasks := rfl

/-- Replacing the alerts list does not touch the task list. -/
@[simp] theorem setAlertsTasks (l : List Alert) (s : AppState) :
    (setAlerts l s).agentTasks = s.agentTasks := rfl

/-- Replacing the client detail does not touch the task list. -/
@[simp] theorem setClientDetailTasks (d : Option ClientDetail) (s : AppState) :
    (setClientDetail d s).agentTasks = s.agentTasks := rfl

/-- Replacing the thinking step does not touch the task list. -/
@[simp] theorem setThinkingStepTasks (st : String) (s : AppState) :
    (setThinkingStep st s).agentTasks = s.agentTasks := rfl

/-- The task list after `addAgentTask`. -/
@[simp] theorem addAgentTaskTasks (t : AgentTask) (s : AppState) :
    (addAgentTask t s).agentTasks = (t :: s.agentTasks).take 20 := rfl

/-- The task list after `updateAgentTask`. -/
@[simp] theorem updateAgentTaskTasks (tid : String) (u : AgentTaskUpdate) (s : AppState) :
    (updateAgentTask tid u s).agentTasks =
      s.agentTasks.map (fun t => if t.id = tid then applyTaskUpdate t u else t) := rfl

/-- The task list after the `agent_dispatch` case body. -/
@[simp] theorem handleAgentDispatchTasks (now : String) (msg : WsMsg) (s : AppState) :
    (handleAgentDispatch now msg s).agentTasks =
      (dispatchTask msg now :: s.agentTasks).take 20 := rfl

/-- The task list after the `agent_update` case body. -/
@[simp] theorem handleAgentUpdateTasks (msg : WsMsg) (s : AppState) :
    (handleAgentUpdate msg s).agentTasks =
      s.agentTasks.map (fun t => if t.id = msg.task_id.getD "" then
        applyTaskUpdate t (agentUpdateChanges msg.payload) else t) := rfl

/-- The task list after the `agent_complete` case body. -/
@[simp] theorem handleAgentCompleteTasks (now : String) (msg : WsMsg) (s : AppState) :
    (handleAgentComplete now msg s).agentTasks =
      s.agentTasks.map (fun t => if t.id = msg.task_id.getD "" then
        applyTaskUpdate t (agentCompleteChanges msg.payload now) else t) := rfl

/-- The `chat_response` case body does not touch the task list. -/
@[simp] theorem handleChatResponseTasks (now uuid : String) (msg : WsMsg) (s : AppState) :
    (handleChatResponse now uuid msg s).agentTasks = s.agentTasks := by
  unfold handleChatResponse
  cases msg.payload.analysis <;> rfl

/-- The `tri_tiered_output` case body does not touch the task list. -/
@[simp] theorem handleTriTieredTasks (msg : WsMsg) (s : AppState) :
    (handleTriTiered msg s).agentTasks = s.agentTasks := rfl

/-- The `thinking` case body does not touch the task list. -/
@[simp] theorem handleThinkingTasks (msg : WsMsg) (s : AppState) :
    (handleThinking msg s).agentTasks = s.agentTasks := by
  unfold handleThinking
  split <;> rfl

/-- The `rag_updated` case body does not touch the task list. -/
@[simp] theorem handleRagUpdatedTasks (msg : WsMsg) (s : AppState) :
    (handleRagUpdated msg s).agentTasks = s.agentTasks := by
  unfold handleRagUpdated
  split
  · dsimp only
    split <;> rfl
  · rfl

/-- The `rag_deleted` case body does not touch the task list. -/
@[simp] theorem handleRagDeletedTasks (msg : WsMsg) (s : AppState) :
    (handleRagDeleted msg s).agentTasks = s.agentTasks := by
  unfold handleRagDeleted
  split
  · dsimp only
    split <;> rfl
  · rfl

/-- The `error` case body does not touch the task list. -/
@[simp] theorem handleErrorTasks (now uuid : String) (msg : WsMsg) (s : AppState) :
    (handleError now uuid msg s).agentTasks = s.agentTasks := rfl

set_option maxHeartbeats 3200000 in
/-- The real-time handler touches the task list in exactly three ways:
not at all, prepending the dispatch row (capped at 20), or updating the
matching row with the `agent_update` / `agent_complete` changes. -/
theorem handleMessageTasksCases (now uuid : String) (a0 : List Alert) (msg : WsMsg)
    (s : AppState) :
    (handleMessage now uuid a0 msg s).agentTasks = s.agentTasks ∨
    (handleMessage now uuid a0 msg s).agentTasks =
      (dispatchTask msg now :: s.agentTasks).take 20 ∨
    (handleMessage now uuid a0 msg s).agentTasks =
      s.agentTasks.map (fun t => if t.id = msg.task_id.getD "" then
        applyTaskUpdate t (agentUpdateChanges msg.payload) else t) ∨
    (handleMessage now uuid a0 msg s).agentTasks =
      s.agentTasks.map (fun t => if t.id = msg.task_id.getD "" then
        applyTaskUpdate t (agentCompleteChanges msg.payload now) else t) := by
  dsimp only [handleMessage]
  repeat' split
  all_goals first
    | exact Or.inl rfl
    | exact Or.inl (handleChatResponseTasks now uuid msg s)
    | exact Or.inl (handleThinkingTasks msg s)
    | exact Or.inl (handleRagUpdatedTasks msg s)
    | exact Or.inl (handleRagDeletedTasks msg s)
    | exact Or.inr (Or.inl rfl)
    | exact Or.inr (Or.inr (Or.inl rfl))
    | exact Or.inr (Or.inr (Or.inr rfl))

/-- Every task row written by the real-time handler satisfies the
`agent_tasks` CHECK constraints, provided the rows already stored do. -/
theorem handleKeepsValidTasks (now uuid : String) (a0 : List Alert) (msg : WsMsg)
    (s : AppState) (hall : ∀ x ∈ s.agentTasks, validTaskRow x = true) :
    ∀ x ∈ (handleMessage now uuid a0 msg s).agentTasks, validTaskRow x = true := by
  have hmap : ∀ (u : AgentTaskUpdate), u.status.getD "" = "running" ∨ u.status.getD "" = "completed" →
      u.status.isSome = true → u.advisor_action = none →
      ∀ x ∈ s.agentTasks.map (fun t => if t.id = msg.task_id.getD "" then
        applyTaskUpdate t u else t), validTaskRow x = true := by
    intro u hst hsome hadv x hx
    rcases List.mem_map.mp hx with ⟨y, hy, rfl⟩
    have hy2 := hall y hy
    simp only [validTaskRow, Bool.and_eq_true] at hy2
    by_cases hid : y.id = msg.task_id.getD ""
    · rw [if_pos hid]
      rcases Option.isSome_iff_exists.mp hsome with ⟨st, hstEq⟩
      have hst2 : st = "running" ∨ st = "completed" := by
        rw [hstEq] at hst; simpa using hst
      simp only [validTaskRow, applyTaskUpdate, Bool.and_eq_true, hstEq, hadv,
        Option.getD_some, Option.getD_none]
      rcases hst2 with h | h <;> simp [h, validTaskStatus, hy2.2]
    · rw [if_neg hid]
      simp [validTaskRow, Bool.and_eq_true, hy2.1, hy2.2]
  intro x hx
  rcases handleMessageTasksCases now uuid a0 msg s with h | h | h | h
  · rw [h] at hx; exact hall x hx
  · rw [h] at hx
    rcases List.mem_cons.mp (List.take_subset _ _ hx) with h2 | h2
    · subst h2; rfl
    · exact hall x h2
  · rw [h] at hx
    exact hmap (agentUpdateChanges msg.payload) (Or.inl rfl) rfl rfl x hx
  · rw [h] at hx
    exact hmap (agentCompleteChanges msg.payload now) (Or.inr rfl) rfl rfl x hx

/-- A per-row rewrite preserves the sequence of row ids when it fixes every
row's id. -/
theorem mapKeepsIds (f : AgentTask → AgentTask) (hf : ∀ t, (f t).id = t.id)
    (r : List AgentTask) : (r.map f).map AgentTask.id = r.map AgentTask.id := by
  induction r with
  | nil => rfl
  | cons t rest ih => simp only [List.map_cons, hf t, ih]

/- ### Claim C8 -/

/-- Claim C8: every stored invocation row satisfies the `agent_tasks` CHECK
enumerations — status among pending/running/completed/failed and advisor
disposition NULL or among approved/edited/rejected — and the task store is
append-only: `create` appends to the end, `transition` and
`recordDisposition` preserve the row-id sequence exactly (no row deleted,
none inserted), each op preserves row validity given valid inputs, and the
client-side real-time handler likewise only writes rows satisfying the
constraints. -/
theorem task_store_valid_and_append_only :
    ∀ (r : List AgentTask) (t : AgentTask) (taskId status note disposition : String)
      (output : Option Payload) (completedAt : Option String)
      (now uuid : String) (a0 : List Alert) (msg : WsMsg) (s : AppState),
      (registryCreate r t = r ++ [t]) ∧
      ((registryTransition r taskId status output completedAt).map AgentTask.id =
        r.map AgentTask.id) ∧
      ((registryRecordDisposition r taskId disposition note).map AgentTask.id =
        r.map AgentTask.id) ∧
      ((∀ x ∈ r, validTaskRow x = true) → validTaskRow t = true →
        ∀ x ∈ registryCreate r t, validTaskRow x = true) ∧
      ((∀ x ∈ r, validTaskRow x = true) → validTaskStatus status = true →
        ∀ x ∈ registryTransition r taskId status output completedAt,
          validTaskRow x = true) ∧
      ((∀ x ∈ r, validTaskRow x = true) → validAdvisorAction (some disposition) = true →
        ∀ x ∈ registryRecordDisposition r taskId disposition note,
          validTaskRow x = true) ∧
      ((∀ x ∈ s.agentTasks, validTaskRow x = true) →
        ∀ x ∈ (handleMessage now uuid a0 msg s).agentTasks, validTaskRow x = true) := by
  intro r t taskId status note disposition output completedAt now uuid a0 msg s
  refine ⟨rfl, ?_, ?_, ?_, ?_, ?_, fun hall => handleKeepsValidTasks now uuid a0 msg s hall⟩
  · apply mapKeepsIds
    intro x
    by_cases h : x.id = taskId
    · rw [if_pos h]
    · rw [if_neg h]
  · apply mapKeepsIds
    intro x
    by_cases h : x.id = taskId
    · rw [if_pos h]
    · rw [if_neg h]
  · intro hall hvt x hx
    rcases List.mem_append.mp hx with h | h
    · exact hall x h
    · rw [List.mem_singleton.mp h]; exact hvt
  · intro hall hvs x hx
    rcases List.mem_map.mp hx with ⟨y, hy, rfl⟩
    have hy2 := hall y hy
    simp only [validTaskRow, Bool.and_eq_true] at hy2
    by_cases h : y.id = taskId
    · rw [if_pos h]
      simp [validTaskRow, Bool.and_eq_true, hvs, hy2.2]
    · rw [if_neg h]
      simp [validTaskRow, Bool.and_eq_true, hy2.1, hy2.2]
  · intro hall hvd x hx
    rcases List.mem_map.mp hx with ⟨y, hy, rfl⟩
    have hy2 := hall y hy
    simp only [validTaskRow, Bool.and_eq_true] at hy2
    by_cases h : y.id = taskId
    · rw [if_pos h]
      simp [validTaskRow, Bool.and_eq_true, hvd, hy2.1]
    · rw [if_neg h]
      simp [validTaskRow, Bool.and_eq_true, hy2.1, hy2.2]

/-- Witness for C8: the registry ops on a concrete one-row store keep every
row valid and keep the id sequence, and the handler applied to a concrete
complete event keeps every stored row valid. -/
theorem task_store_valid_witness :
    (∀ x ∈ registryCreate [sampleRunningTask] samplePendingTask, validTaskRow x = true) ∧
    (∀ x ∈ registryTransition [sampleRunningTask] "t1" "completed"
        (some [("result", "42")]) (some "2025-02-01T00:00:10Z"), validTaskRow x = true) ∧
    (∀ x ∈ registryRecordDisposition [sampleRunningTask] "t1" "approved" "looks right",
      validTaskRow x = true) ∧
    (∀ x ∈ (handleMessage "2025-02-01T00:00:10Z" "u9" [] completeMsg oneTaskState).agentTasks,
      validTaskRow x = true) := by
  refine ⟨?_, ?_, ?_, ?_⟩
  · exact (task_store_valid_and_append_only [sampleRunningTask] samplePendingTask
      "t1" "completed" "looks right" "approved" (some [("result", "42")])
      (some "2025-02-01T00:00:10Z") "2025-02-01T00:00:10Z" "u9" [] completeMsg
      oneTaskState).2.2.2.1 (by decide) (by decide)
  · exact (task_store_valid_and_append_only [sampleRunningTask] samplePendingTask
      "t1" "completed" "looks right" "approved" (some [("result", "42")])
      (some "2025-02-01T00:00:10Z") "2025-02-01T00:00:10Z" "u9" [] completeMsg
      oneTaskState).2.2.2.2.1 (by decide) (by decide)
  · exact (task_store_valid_and_append_only [sampleRunningTask] samplePendingTask
      "t1" "completed" "looks right" "approved" (some [("result", "42")])
      (some "2025-02-01T00:00:10Z") "2025-02-01T00:00:10Z" "u9" [] completeMsg
      oneTaskState).2.2.2.2.2.1 (by decide) (by decide)
  · exact (task_store_valid_and_append_only [sampleRunningTask] samplePendingTask
      "t1" "completed" "looks right" "approved" (some [("result", "42")])
      (some "2025-02-01T00:00:10Z") "2025-02-01T00:00:10Z" "u9" [] completeMsg
      oneTaskState).2.2.2.2.2.2 (by decide)

end FinanceOS
